import Mathlib

/-!
Verification of the layer-sequence construction, stage-boundary adapters,
mode switching and sequential reconstruction of neox/model/gpt2_model.py
(GPT2ModelPipe and its helper functions), via a shallow embedding.

Conventions of the embedding:
* A tensor is modelled by an allocation identifier (standing for Python
  object identity) plus its contents viewed along the first two axes;
  deeper axes are abstracted into the entries.  torch.Tensor() is the
  empty contents.  transpose(0, 1) is List.transpose on the two explicit
  axes; .contiguous() is the identity on contents but (like transpose)
  yields a freshly allocated object, so embedded functions that allocate
  take a fresh identifier supply as an extra first argument.
* Python functions that can raise are embedded as Except String.
* The constituent layer classes (EmbeddingPipe, ParallelTransformerLayerPipe,
  GMLPBlock, NormPipe, ParallelLinearPipe) and deepspeed's LayerSpec /
  TiedLayerSpec live outside this file's source; they are represented by
  inert descriptor and instance values carrying exactly the fields the
  verified code reads or writes.
-/

namespace GPT2ModelPipeSpec

/-- Tensor value: allocation identifier plus contents along the first two
axes (deeper axes abstracted into the Nat entries). -/
structure Tens where
  id : Nat
  data : List (List Nat)
  deriving DecidableEq, Repr

/-- Embedding of _pre_transformer_block (gpt2_model.py lines 67-81).
A 3-tuple (inference) becomes (hidden.transpose(0,1).contiguous(),
layer_past, torch.Tensor(), attention_mask); a 2-tuple (training) becomes
(hidden.transpose(0,1).contiguous(), attention_mask); any other arity
raises ValueError.  The fresh argument supplies identifiers for the two
possibly allocated result tensors: the transposed copy gets fresh, the
empty cache container gets fresh + 1. -/
def _pre_transformer_block (fresh : Nat) (args : List Tens) : Except String (List Tens) :=
  match args with
  | [x0, x1, x2] => .ok [⟨fresh, x0.data.transpose⟩, x1, ⟨fresh + 1, []⟩, x2]
  | [x0, x1] => .ok [⟨fresh, x0.data.transpose⟩, x1]
  | _ => .error "Incorrect number of args in _pre_transformer_block"

/-- Result of the post-transformer adapter: in training a bare tensor, in
inference a tuple. -/
inductive BlockOut where
  | single (t : Tens)
  | tup (ts : List Tens)
  deriving DecidableEq, Repr

/-- Embedding of _post_transformer_block (gpt2_model.py lines 84-99).
A 4-tuple (inference) becomes (hidden.transpose(0,1).contiguous(),
presents), dropping layer_past and the mask; a 2-tuple (training) becomes
the bare transposed hidden-state tensor; any other arity raises
ValueError. -/
def _post_transformer_block (fresh : Nat) (args : List Tens) : Except String BlockOut :=
  match args with
  | [x0, _x1, x2, _x3] => .ok (.tup [⟨fresh, x0.data.transpose⟩, x2])
  | [x0, _x1] => .ok (.single ⟨fresh, x0.data.transpose⟩)
  | _ => .error "Incorrect number of args in _post_transformer_block"

/-- The slice of NeoXArgs that gpt2_model.py reads when building specs. -/
structure NeoxArgs where
  hidden_size : Nat
  num_layers : Nat
  attention_config : List String
  no_weight_tying : Bool
  deriving DecidableEq, Repr

/-- A descriptor in the list built by GPT2ModelPipe.init_specs: a
deepspeed TiedLayerSpec (with its tie key, and whether a forward_fn
override was supplied), a plain LayerSpec for one of the five layer
classes (with the constructor arguments the source passes), or one of the
two bare adapter functions appended directly to the list.  The foreign
constructor stands for any other Python object in the heterogeneous list
(reachable only in to_sequential's final else branch). -/
inductive LayerSpecItem where
  | tiedEmbedding (key : String) (hasForwardFn : Bool)
  | embedding
  | preFn
  | gmlpBlock (layer_number : Nat)
  | transformerLayer (layer_number : Nat) (get_key_value : Bool)
  | postFn
  | normStage
  | linearHead (parallel_output : Bool) (inference : Bool)
  | foreign (n : Nat)
  deriving DecidableEq, Repr

/-- One iteration of the transformer-layer loop (gpt2_model.py lines
214-234): layer kinds gmlp and amlp build a GMLPBlock (layer_number = i,
mask_fn = gpt2_attention_mask_func), every other kind builds a
ParallelTransformerLayerPipe (layer_number = i, attention_mask_func =
gpt2_attention_mask_func, get_key_value = the model's caching flag).  The
mask function is the fixed module-level gpt2_attention_mask_func in both
branches, so it is not recorded in the descriptor. -/
def specForLayer (get_key_value : Bool) (i : Nat) (layer_type : String) : LayerSpecItem :=
  if layer_type == "gmlp" || layer_type == "amlp" then .gmlpBlock i
  else .transformerLayer i get_key_value

/-- The transformer-layer section of init_specs: descriptors for layers
0..n-1 in order.  Reading attention_config out of range is Python's
IndexError, modelled by none. -/
def layerSpecsAux (attn : List String) (get_key_value : Bool) : Nat → Option (List LayerSpecItem)
  | 0 => some []
  | n + 1 => do
      let pre ← layerSpecsAux attn get_key_value n
      let t ← attn.get? n
      pure (pre ++ [specForLayer get_key_value n t])

/-- Embedding of GPT2ModelPipe.init_specs (gpt2_model.py lines 156-304):
embedding (tied when weight tying is on), the pre-transformer adapter,
the per-layer descriptors, the post-transformer adapter, the final norm,
and the LM head (a second tied embedding descriptor carrying the
_logits_helper forward override when weight tying is on, otherwise a
ParallelLinearPipe descriptor). -/
def init_specs (args : NeoxArgs) (get_key_value parallel_output inference : Bool) :
    Option (List LayerSpecItem) :=
  let weight_tying := !args.no_weight_tying
  (layerSpecsAux args.attention_config get_key_value args.num_layers).map fun layers =>
    (if weight_tying then [.tiedEmbedding "embed" false] else [.embedding])
      ++ [.preFn] ++ layers ++ [.postFn, .normStage]
      ++ (if weight_tying then [.tiedEmbedding "embed" true]
          else [.linearHead parallel_output inference])

/-- True for a TiedLayerSpec whose tie key is "embed". -/
def isTiedEmbedSpec : LayerSpecItem → Bool
  | .tiedEmbedding key _ => key == "embed"
  | _ => false

/-- True for a TiedLayerSpec of any key. -/
def isTiedSpec : LayerSpecItem → Bool
  | .tiedEmbedding _ _ => true
  | _ => false

/-- True for a plain (untied) LayerSpec. -/
def isLayerSpec : LayerSpecItem → Bool
  | .embedding | .gmlpBlock _ | .transformerLayer _ _ | .normStage | .linearHead _ _ => true
  | _ => false

/-- True for the descriptors emitted by the transformer-layer loop. -/
def isTransformerStage : LayerSpecItem → Bool
  | .gmlpBlock _ | .transformerLayer _ _ => true
  | _ => false

/-- A stage of the chain produced by to_sequential: a module instance
built from a descriptor (ref is its heap identity), the thin Lambda
wrapper appended for a tied receiver (it captures the owner instance and
at call time invokes the descriptor's forward override on it and the
current tuple), or a Lambda wrapping a bare adapter function. -/
inductive SeqLayer where
  | builtModule (ref : Nat) (builtFrom : LayerSpecItem)
  | tiedLambda (key : String) (ownerRef : Nat)
  | fnLambda (builtFrom : LayerSpecItem)
  deriving DecidableEq, Repr

/-- State threaded through to_sequential's loop: the layers built so far,
the tied_layers mapping from tie key to the owner instance (the source
keeps a defaultdict of lists and only ever reads index 0; each key is
appended at most once, so an association list to the single owner ref is
an exact model), and the next fresh instance identity. -/
structure BuildState where
  layers : List SeqLayer
  tied_layers : List (String × Nat)
  nextRef : Nat
  deriving DecidableEq, Repr

/-- Lookup in the tied_layers mapping (tied_layers[spec.key][0]). -/
def lookupTied (key : String) (tl : List (String × Nat)) : Option Nat :=
  (tl.find? fun p => p.fst == key).map Prod.snd

/-- One iteration of to_sequential's loop (gpt2_model.py lines 347-365):
TiedLayerSpec with a key already seen appends the receiver wrapper around
the owner instance; TiedLayerSpec with a new key builds the owner and
records it; a plain LayerSpec is built and appended; a callable is
wrapped in Lambda and appended; anything else raises ValueError. -/
def buildStep (st : BuildState) (item : LayerSpecItem) : Except String BuildState :=
  match item with
  | .tiedEmbedding key fwd =>
      match lookupTied key st.tied_layers with
      | some ownerRef =>
          .ok { st with layers := st.layers ++ [.tiedLambda key ownerRef] }
      | none =>
          .ok { st with
                  layers := st.layers ++ [.builtModule st.nextRef (.tiedEmbedding key fwd)]
                  tied_layers := st.tied_layers ++ [(key, st.nextRef)]
                  nextRef := st.nextRef + 1 }
  | .foreign _ => .error "Layer not recognized"
  | item =>
      if isLayerSpec item then
        .ok { st with
                layers := st.layers ++ [.builtModule st.nextRef item]
                nextRef := st.nextRef + 1 }
      else
        .ok { st with layers := st.layers ++ [.fnLambda item] }

/-- The loop of to_sequential over the whole descriptor list. -/
def buildSeq (st : BuildState) : List LayerSpecItem → Except String BuildState
  | [] => .ok st
  | item :: rest => do
      let st' ← buildStep st item
      buildSeq st' rest

/-- Embedding of GPT2ModelPipe.to_sequential (gpt2_model.py lines
339-372).  The SequentialWrapper it returns holds the ordered built-stage
list; the checkpoint interval it also carries plays no part in the
verified properties, so the result is the stage list. -/
def to_sequential (specs : List LayerSpecItem) : Except String (List SeqLayer) :=
  (buildSeq ⟨[], [], 0⟩ specs).map BuildState.layers

/-- Reading the word_embeddings_weight attribute through a chain stage:
a built module reads the matrix stored at its own heap identity, the tied
receiver wrapper reads it from the owner instance it captured, and a bare
adapter wrapper has no weight.  heap maps instance identities to the
stored matrices. -/
def readWeight (heap : Nat → List (List Nat)) : SeqLayer → Option (List (List Nat))
  | .builtModule r _ => some (heap r)
  | .tiedLambda _ r => some (heap r)
  | .fnLambda _ => none

/-- True for a built module instance constructed from a TiedLayerSpec. -/
def isTiedBuilt : SeqLayer → Bool
  | .builtModule _ s => isTiedSpec s
  | _ => false

/-- A built layer instance as it sits in the pipeline's forward_funcs:
the embedding module, the tied-head receiver Lambda, a transformer or
gated-MLP block carrying its mutable get_key_value caching flag (spec
section 6: both transformer-block kinds expose one), the final norm, a
ParallelLinearPipe head carrying the mutable flag behind
final_linear.set_parallel_output, or a wrapped adapter function. -/
inductive Layer where
  | embedLayer
  | tiedHeadLambda
  | transformerLayer (layer_number : Nat) (get_key_value : Bool)
  | gmlpLayer (layer_number : Nat) (get_key_value : Bool)
  | normLayer
  | linearHead (parallel_output : Bool)
  | adapterFn
  deriving DecidableEq, Repr

/-- Modelled from the spec: recursive_setattr (neox.model.utils, not
under src) sets the named attribute on every layer that has it; spec
sections 4.3 and 6 say the caching flag exists exactly on the
transformer-block layers (standard and gated-MLP) and that toggling it on
a layer kind with no caching concept is a skip, never an error. -/
def setGetKeyValue (v : Bool) : Layer → Layer
  | .transformerLayer n _ => .transformerLayer n v
  | .gmlpLayer n _ => .gmlpLayer n v
  | l => l

/-- True for the layer kinds recognized by _set_parallel_output's
isinstance check (ParallelLinearPipe, ParallelLinear — both collapse to
the linear-head instance here). -/
def isLinearHeadLayer : Layer → Bool
  | .linearHead _ => true
  | _ => false

/-- Embedding of GPT2ModelPipe._set_parallel_output (gpt2_model.py lines
306-312).  list(forward_funcs)[-1] on an empty stage raises IndexError;
when the final layer is a recognized linear head the call
final_linear.set_parallel_output(value) stores value in its flag
(modelled from the spec: the linear head exposes a mutable gather-output
flag, set to the passed value); any other final layer is left untouched
and no error is raised. -/
def _set_parallel_output (value : Bool) (forward_funcs : List Layer) :
    Except String (List Layer) :=
  match forward_funcs.getLast? with
  | none => .error "IndexError: list index out of range"
  | some fl =>
      if isLinearHeadLayer fl then
        .ok (forward_funcs.dropLast ++ [.linearHead value])
      else
        .ok forward_funcs

/-- Embedding of GPT2ModelPipe.inference_mode (gpt2_model.py lines
314-325): recursive_setattr of get_key_value to cache over all layers,
then _set_parallel_output False on the final layer. -/
def inference_mode (cache : Bool) (forward_funcs : List Layer) :
    Except String (List Layer) :=
  _set_parallel_output false (forward_funcs.map (setGetKeyValue cache))

/-- Embedding of GPT2ModelPipe.train_mode (gpt2_model.py lines 327-337):
recursive_setattr of get_key_value to False over all layers, then
_set_parallel_output True on the final layer. -/
def train_mode (forward_funcs : List Layer) : Except String (List Layer) :=
  _set_parallel_output true (forward_funcs.map (setGetKeyValue false))

/-- The caching flag of a layer, when the layer has one. -/
def cacheFlag : Layer → Option Bool
  | .transformerLayer _ v => some v
  | .gmlpLayer _ v => some v
  | _ => none

/-- The flag behind set_parallel_output on the final layer, when that
layer is a recognized linear head. -/
def headParallelOutput (forward_funcs : List Layer) : Option Bool :=
  forward_funcs.getLast?.bind fun l =>
    match l with
    | .linearHead p => some p
    | _ => none

/-- Modelled from the spec: parallel_lm_logits (neox.model.transformer,
not under src) combines the hidden states with the embedding weight
matrix to produce logits, honouring the parallel-output flag; modelled as
an opaque record of its three arguments. -/
structure LogitsVal where
  hidden : BlockOut
  weight : Tens
  parallel_output : Bool
  deriving DecidableEq, Repr

/-- Constructor wrapper mirroring the call parallel_lm_logits(hidden,
embedding.word_embeddings_weight, parallel_output). -/
def parallel_lm_logits (h : BlockOut) (w : Tens) (p : Bool) : LogitsVal := ⟨h, w, p⟩

/-- Result of the tied head's forward override: logits alone, or logits
paired with the passed-through cached key/values. -/
inductive HeadOut where
  | logitsOnly (l : LogitsVal)
  | logitsWithPresents (l : LogitsVal) (presents : Tens)
  deriving DecidableEq, Repr

/-- Embedding of _logits_helper (gpt2_model.py lines 265-281): when the
model is in inference mode and lm_output is a 2-tuple, unpack it as
(hidden_states, presents) and return (logits(hidden_states), presents);
in every other case return parallel_lm_logits applied to lm_output as
given.  The Python length test len(lm_output) == 2 is tuple arity here:
in the pipeline's dataflow the head receives a tuple exactly in
inference. -/
def _logits_helper (inference parallel_output : Bool) (word_embeddings_weight : Tens)
    (lm_output : BlockOut) : HeadOut :=
  match inference, lm_output with
  | true, .tup [hidden_states, presents] =>
      .logitsWithPresents
        (parallel_lm_logits (.single hidden_states) word_embeddings_weight parallel_output)
        presents
  | _, _ => .logitsOnly (parallel_lm_logits lm_output word_embeddings_weight parallel_output)

/-- The fields GPT2ModelPipe.__init__ stores before handing off to the
deepspeed PipelineModule constructor (topology and the loss function are
external concerns and carry no verified content). -/
structure GPT2ModelPipe where
  neox_args : NeoxArgs
  _inference : Bool
  get_key_value : Bool
  parallel_output : Bool
  hidden_size : Nat
  specs : Option (List LayerSpecItem)
  deriving DecidableEq, Repr

/-- Embedding of GPT2ModelPipe.__init__ (gpt2_model.py lines 122-154):
get_key_value is the passed flag only under inference, otherwise False,
and init_specs is called with the stored (coerced) flag. -/
def GPT2ModelPipe.init (neox_args : NeoxArgs) (parallel_output : Bool)
    (inference : Bool) (get_key_value : Bool) : GPT2ModelPipe :=
  let gkv := if inference then get_key_value else false
  { neox_args := neox_args
    _inference := inference
    get_key_value := gkv
    parallel_output := parallel_output
    hidden_size := neox_args.hidden_size
    specs := init_specs neox_args gkv parallel_output inference }

/-- The configured layer kind at index i (in range it is the table
entry; the default is never reached in the proofs, which carry an
in-range hypothesis). -/
def layerKindAt (attn : List String) (i : Nat) : String :=
  attn[i]?.getD ""

/-- When num_layers stays within the configured kind table, the
transformer-layer loop succeeds and produces the descriptors for indices
0..n-1 in order. -/
theorem layerSpecsAux_eq (attn : List String) (kv : Bool) :
    ∀ n, n ≤ attn.length →
      layerSpecsAux attn kv n =
        some ((List.range n).map fun i => specForLayer kv i (layerKindAt attn i)) := by
  intro n
  induction n with
  | zero => intro _; rfl
  | succ k ih =>
    intro h
    have hlt : k < attn.length := Nat.lt_of_succ_le h
    have hget : attn.get? k = some (layerKindAt attn k) := by
      rw [List.get?_eq_getElem?]
      unfold layerKindAt
      rw [List.getElem?_eq_getElem hlt]
      rfl
    simp only [layerSpecsAux, ih (Nat.le_of_succ_le h), hget, List.range_succ,
      List.map_append, Option.bind_eq_bind, Option.some_bind]
    rfl

/-- Shape facts about every descriptor the transformer-layer loop emits. -/
theorem specForLayer_shape (kv : Bool) (i : Nat) (t : String) :
    isTransformerStage (specForLayer kv i t) = true ∧
    isTiedSpec (specForLayer kv i t) = false ∧
    isTiedEmbedSpec (specForLayer kv i t) = false ∧
    isLayerSpec (specForLayer kv i t) = true ∧
    ∀ m, specForLayer kv i t ≠ .foreign m := by
  cases hb : (t == "gmlp" || t == "amlp") <;>
    simp [specForLayer, hb, isTransformerStage, isTiedSpec, isTiedEmbedSpec, isLayerSpec]

/-- C3: with weight tying enabled the builder's output contains exactly
two descriptors with tie key "embed", sitting at the first and last
positions (so the owner strictly precedes the receiver), and the whole
sequence has num_layers + 5 entries; in particular for num_layers = 2
with two standard kinds the sequence has 7 entries with entries 0 and 6
the tied pair. -/
theorem tied_embedding_pair (args : NeoxArgs) (kv po inf : Bool)
    (hty : args.no_weight_tying = false)
    (hlen : args.num_layers ≤ args.attention_config.length) :
    (∃ L, init_specs args kv po inf = some L ∧
        L.countP isTiedEmbedSpec = 2 ∧
        L.length = args.num_layers + 5 ∧
        L.head? = some (.tiedEmbedding "embed" false) ∧
        L.getLast? = some (.tiedEmbedding "embed" true) ∧
        0 < L.length - 1) ∧
    (∃ L2, init_specs ⟨0, 2, ["standard", "standard"], false⟩ kv po inf = some L2 ∧
        L2.length = 7 ∧
        (L2.get? 0).map isTiedEmbedSpec = some true ∧
        (L2.get? 6).map isTiedEmbedSpec = some true ∧
        L2.countP isTiedEmbedSpec = 2) := by
  constructor
  · have hlayers := layerSpecsAux_eq args.attention_config kv args.num_layers hlen
    have hspec : init_specs args kv po inf =
        some ((LayerSpecItem.tiedEmbedding "embed" false ::
          ([LayerSpecItem.preFn]
            ++ ((List.range args.num_layers).map
                  fun i => specForLayer kv i (layerKindAt args.attention_config i))
            ++ [LayerSpecItem.postFn, LayerSpecItem.normStage]))
          ++ [LayerSpecItem.tiedEmbedding "embed" true]) := by
      simp [init_specs, hty, hlayers]
    have hzero : ((List.range args.num_layers).map
        fun i => specForLayer kv i (layerKindAt args.attention_config i)).countP
          isTiedEmbedSpec = 0 := by
      rw [List.countP_eq_zero]
      intro s hs
      obtain ⟨i, _, rfl⟩ := List.mem_map.mp hs
      rw [(specForLayer_shape kv i (layerKindAt args.attention_config i)).2.2.1]
      exact Bool.false_ne_true
    refine ⟨_, hspec, ?_, ?_, rfl, List.getLast?_concat _, ?_⟩
    · rw [List.countP_append, List.countP_cons, List.countP_append,
        List.countP_append, hzero]
      rfl
    · simp only [List.length_append, List.length_cons, List.length_nil,
        List.length_map, List.length_range]
      omega
    · simp only [List.length_append, List.length_cons, List.length_nil,
        List.length_map, List.length_range]
      omega
  · exact ⟨[.tiedEmbedding "embed" false, .preFn, .transformerLayer 0 kv,
        .transformerLayer 1 kv, .postFn, .normStage, .tiedEmbedding "embed" true],
      rfl, rfl, rfl, rfl, rfl⟩

/-- Witness for tied_embedding_pair at a concrete two-layer tied config. -/
theorem tied_embedding_pair_witness :
    (∃ L, init_specs ⟨0, 2, ["standard", "standard"], false⟩ true true false = some L ∧
        L.countP isTiedEmbedSpec = 2 ∧
        L.length = 2 + 5 ∧
        L.head? = some (.tiedEmbedding "embed" false) ∧
        L.getLast? = some (.tiedEmbedding "embed" true) ∧
        0 < L.length - 1) ∧
    (∃ L2, init_specs ⟨0, 2, ["standard", "standard"], false⟩ true true false = some L2 ∧
        L2.length = 7 ∧
        (L2.get? 0).map isTiedEmbedSpec = some true ∧
        (L2.get? 6).map isTiedEmbedSpec = some true ∧
        L2.countP isTiedEmbedSpec = 2) :=
  tied_embedding_pair ⟨0, 2, ["standard", "standard"], false⟩ true true false
    (by decide) (by decide)

/-- C7: the builder output's transformer-stage descriptors form exactly
the ordered list over layer indices 0..num_layers-1, the i-th tagged with
index i, a gated-MLP-block descriptor when the configured kind at i is
gmlp or amlp and otherwise a standard-transformer-block descriptor
carrying the current caching flag. -/
theorem transformer_stage_sequence (args : NeoxArgs) (kv po inf : Bool)
    (hlen : args.num_layers ≤ args.attention_config.length) :
    ∃ L, init_specs args kv po inf = some L ∧
      L.filter isTransformerStage = (List.range args.num_layers).map
        (fun i =>
          if layerKindAt args.attention_config i == "gmlp"
              || layerKindAt args.attention_config i == "amlp"
          then LayerSpecItem.gmlpBlock i
          else LayerSpecItem.transformerLayer i kv) ∧
      (L.filter isTransformerStage).length = args.num_layers ∧
      ∀ i, i < args.num_layers →
        (L.filter isTransformerStage).get? i =
          some (if layerKindAt args.attention_config i == "gmlp"
                  || layerKindAt args.attention_config i == "amlp"
                then LayerSpecItem.gmlpBlock i
                else LayerSpecItem.transformerLayer i kv) := by
  have hlayers := layerSpecsAux_eq args.attention_config kv args.num_layers hlen
  have hself : ((List.range args.num_layers).map
      fun i => specForLayer kv i (layerKindAt args.attention_config i)).filter
        isTransformerStage = (List.range args.num_layers).map
          fun i => specForLayer kv i (layerKindAt args.attention_config i) := by
    rw [List.filter_eq_self]
    intro s hs
    obtain ⟨i, _, rfl⟩ := List.mem_map.mp hs
    exact (specForLayer_shape kv i (layerKindAt args.attention_config i)).1
  obtain ⟨E, H, hE, hH, hspec⟩ : ∃ E H,
      E.filter isTransformerStage = [] ∧ H.filter isTransformerStage = [] ∧
      init_specs args kv po inf = some (E ++ [LayerSpecItem.preFn]
        ++ ((List.range args.num_layers).map
              fun i => specForLayer kv i (layerKindAt args.attention_config i))
        ++ [LayerSpecItem.postFn, LayerSpecItem.normStage] ++ H) := by
    cases hw : args.no_weight_tying
    · exact ⟨[.tiedEmbedding "embed" false], [.tiedEmbedding "embed" true],
        rfl, rfl, by simp [init_specs, hw, hlayers]⟩
    · exact ⟨[.embedding], [.linearHead po inf],
        rfl, rfl, by simp [init_specs, hw, hlayers]⟩
  have hpre : List.filter isTransformerStage [LayerSpecItem.preFn] = [] := rfl
  have hpost : List.filter isTransformerStage
      [LayerSpecItem.postFn, LayerSpecItem.normStage] = [] := rfl
  have hfilter : ∀ L, init_specs args kv po inf = some L →
      L.filter isTransformerStage = (List.range args.num_layers).map
        fun i => specForLayer kv i (layerKindAt args.attention_config i) := by
    intro L hL
    rw [hspec] at hL
    cases hL
    rw [List.filter_append, List.filter_append, List.filter_append,
      List.filter_append, hE, hH, hpre, hpost, hself]
    simp
  refine ⟨_, hspec, ?_, ?_, ?_⟩
  · exact hfilter _ hspec
  · rw [hfilter _ hspec, List.length_map, List.length_range]
  · intro i hi
    rw [hfilter _ hspec, List.get?_map, List.get?_range hi]
    rfl

/-- Witness for transformer_stage_sequence at a concrete mixed config. -/
theorem transformer_stage_sequence_witness :
    ∃ L, init_specs ⟨0, 2, ["gmlp", "standard"], false⟩ true true false = some L ∧
      L.filter isTransformerStage = (List.range 2).map
        (fun i =>
          if layerKindAt ["gmlp", "standard"] i == "gmlp"
              || layerKindAt ["gmlp", "standard"] i == "amlp"
          then LayerSpecItem.gmlpBlock i
          else LayerSpecItem.transformerLayer i true) ∧
      (L.filter isTransformerStage).length = 2 ∧
      ∀ i, i < 2 →
        (L.filter isTransformerStage).get? i =
          some (if layerKindAt ["gmlp", "standard"] i == "gmlp"
                  || layerKindAt ["gmlp", "standard"] i == "amlp"
                then LayerSpecItem.gmlpBlock i
                else LayerSpecItem.transformerLayer i true) :=
  transformer_stage_sequence ⟨0, 2, ["gmlp", "standard"], false⟩ true true false
    (by decide)

/-- C4: the pre-adapter on a 2-tuple (training) returns a 2-tuple whose
element 0 is the input's element 0 transposed on its first two axes and
whose element 1 is the input's element 1 unchanged; on a 3-tuple
(inference) it returns a 4-tuple of the transposed hidden states, the
cached-past element unchanged, a freshly created empty cache container
identical to no input element, and the attention mask last. -/
theorem pre_adapter_shapes (x0 x1 x2 : Tens) (fresh : Nat)
    (h0 : x0.id < fresh) (h1 : x1.id < fresh) (h2 : x2.id < fresh) :
    _pre_transformer_block fresh [x0, x1] = .ok [⟨fresh, x0.data.transpose⟩, x1] ∧
    _pre_transformer_block fresh [x0, x1, x2] =
      .ok [⟨fresh, x0.data.transpose⟩, x1, ⟨fresh + 1, []⟩, x2] ∧
    (Tens.mk (fresh + 1) []).data = [] ∧
    (Tens.mk (fresh + 1) []).id ≠ x0.id ∧
    (Tens.mk (fresh + 1) []).id ≠ x1.id ∧
    (Tens.mk (fresh + 1) []).id ≠ x2.id := by
  refine ⟨rfl, rfl, rfl, ?_, ?_, ?_⟩ <;> simp <;> omega

/-- Witness for pre_adapter_shapes at concrete tensors. -/
theorem pre_adapter_shapes_witness :
    _pre_transformer_block 3 [⟨0, [[1, 2], [3, 4]]⟩, ⟨1, [[5]]⟩] =
      .ok [⟨3, ([[1, 2], [3, 4]] : List (List Nat)).transpose⟩, ⟨1, [[5]]⟩] ∧
    _pre_transformer_block 3 [⟨0, [[1, 2], [3, 4]]⟩, ⟨1, [[5]]⟩, ⟨2, []⟩] =
      .ok [⟨3, ([[1, 2], [3, 4]] : List (List Nat)).transpose⟩, ⟨1, [[5]]⟩, ⟨4, []⟩, ⟨2, []⟩] ∧
    (Tens.mk 4 []).data = [] ∧
    (Tens.mk 4 []).id ≠ (0 : Nat) ∧
    (Tens.mk 4 []).id ≠ (1 : Nat) ∧
    (Tens.mk 4 []).id ≠ (2 : Nat) :=
  pre_adapter_shapes ⟨0, [[1, 2], [3, 4]]⟩ ⟨1, [[5]]⟩ ⟨2, []⟩ 3
    (by decide) (by decide) (by decide)

/-- C5: the post-adapter on a 2-tuple (training) returns the bare tensor
obtained by transposing element 0 on its first two axes, discarding the
mask; on a 4-tuple (inference) it returns the 2-tuple of that transposed
tensor and the input's third element (the accumulated cache), discarding
the mask and the prior cached-past. -/
theorem post_adapter_shapes (fresh : Nat) (x0 x1 x2 x3 : Tens) :
    _post_transformer_block fresh [x0, x1] = .ok (.single ⟨fresh, x0.data.transpose⟩) ∧
    _post_transformer_block fresh [x0, x1, x2, x3] =
      .ok (.tup [⟨fresh, x0.data.transpose⟩, x2]) :=
  ⟨rfl, rfl⟩

/-- C6: an input tuple of any arity other than 2 or 3 (pre-adapter),
respectively 2 or 4 (post-adapter), makes the adapter raise a contract
violation instead of returning a value. -/
theorem adapter_arity_contract (fresh : Nat) (args : List Tens) :
    (args.length ≠ 2 → args.length ≠ 3 →
      ∃ e, _pre_transformer_block fresh args = .error e) ∧
    (args.length ≠ 2 → args.length ≠ 4 →
      ∃ e, _post_transformer_block fresh args = .error e) := by
  constructor
  · intro h2 h3
    match args with
    | [] => exact ⟨_, rfl⟩
    | [a] => exact ⟨_, rfl⟩
    | [a, b] => simp at h2
    | [a, b, c] => simp at h3
    | a :: b :: c :: d :: rest => exact ⟨_, rfl⟩
  · intro h2 h4
    match args with
    | [] => exact ⟨_, rfl⟩
    | [a] => exact ⟨_, rfl⟩
    | [a, b] => simp at h2
    | [a, b, c] => exact ⟨_, rfl⟩
    | [a, b, c, d] => simp at h4
    | a :: b :: c :: d :: e :: rest => exact ⟨_, rfl⟩

/-- Witness for adapter_arity_contract at the empty tuple. -/
theorem adapter_arity_contract_witness :
    (∃ e, _pre_transformer_block 0 [] = Except.error e) ∧
    (∃ e, _post_transformer_block 0 [] = Except.error e) :=
  ⟨(adapter_arity_contract 0 []).1 (by decide) (by decide),
   (adapter_arity_contract 0 []).2 (by decide) (by decide)⟩

/-- C8: in inference mode, on a 2-tuple (hidden_states, presents) the
tied head's forward override returns the logits computed from the hidden
states and the owner's embedding weight paired with the cached key/values
passed through untouched; in every other case (any non-2-tuple input in
inference, or any input out of inference) it returns only the logits. -/
theorem logits_helper_cases (parallel_output : Bool) (w hidden_states presents : Tens)
    (lm_output : BlockOut) :
    _logits_helper true parallel_output w (.tup [hidden_states, presents]) =
      .logitsWithPresents
        (parallel_lm_logits (.single hidden_states) w parallel_output) presents ∧
    ((∀ h p, lm_output ≠ .tup [h, p]) →
      _logits_helper true parallel_output w lm_output =
        .logitsOnly (parallel_lm_logits lm_output w parallel_output)) ∧
    _logits_helper false parallel_output w lm_output =
      .logitsOnly (parallel_lm_logits lm_output w parallel_output) := by
  refine ⟨rfl, ?_, ?_⟩
  · intro hne
    match lm_output with
    | .single t => rfl
    | .tup [] => rfl
    | .tup [a] => rfl
    | .tup [a, b] => exact absurd rfl (hne a b)
    | .tup (a :: b :: c :: rest) => rfl
  · match lm_output with
    | .single t => rfl
    | .tup ts => rfl

/-- Witness for logits_helper_cases at a bare-tensor input. -/
theorem logits_helper_cases_witness :
    _logits_helper true false ⟨0, []⟩ (BlockOut.single ⟨1, []⟩) =
      .logitsOnly (parallel_lm_logits (BlockOut.single ⟨1, []⟩) ⟨0, []⟩ false) :=
  (logits_helper_cases false ⟨0, []⟩ ⟨0, []⟩ ⟨0, []⟩ (BlockOut.single ⟨1, []⟩)).2.1
    (fun h p => by simp)

/-- C10: constructing the pipeline model with inference = false stores a
false caching flag whatever get_key_value argument was passed; with
inference = true the stored flag equals the passed argument. -/
theorem init_coerces_get_key_value (args : NeoxArgs) (po kv : Bool) :
    (GPT2ModelPipe.init args po false kv).get_key_value = false ∧
    (GPT2ModelPipe.init args po true kv).get_key_value = kv :=
  ⟨rfl, rfl⟩

/-- A descriptor that is neither tied nor foreign is built (or wrapped)
into exactly one appended chain element, leaving the tied mapping
untouched. -/
theorem buildStep_plain (st : BuildState) (item : LayerSpecItem)
    (hnt : isTiedSpec item = false) (hnf : ∀ m, item ≠ .foreign m) :
    ∃ x nr, buildStep st item = .ok ⟨st.layers ++ [x], st.tied_layers, nr⟩ ∧
      isTiedBuilt x = false := by
  cases item with
  | tiedEmbedding key fwd => exact absurd hnt (by simp [isTiedSpec])
  | foreign m => exact absurd rfl (hnf m)
  | embedding => exact ⟨_, _, rfl, rfl⟩
  | preFn => exact ⟨_, _, rfl, rfl⟩
  | gmlpBlock i => exact ⟨_, _, rfl, rfl⟩
  | transformerLayer i g => exact ⟨_, _, rfl, rfl⟩
  | postFn => exact ⟨_, _, rfl, rfl⟩
  | normStage => exact ⟨_, _, rfl, rfl⟩
  | linearHead p i => exact ⟨_, _, rfl, rfl⟩

/-- Running the reconstruction loop over a stretch of plain descriptors
appends their built elements in order and leaves the tied mapping
untouched; none of the appended elements is a tied built module. -/
theorem buildSeq_plain (ms : List LayerSpecItem)
    (hm : ∀ s ∈ ms, isTiedSpec s = false ∧ ∀ m, s ≠ .foreign m) :
    ∀ st, ∃ nw nr, buildSeq st ms = .ok ⟨st.layers ++ nw, st.tied_layers, nr⟩ ∧
      ∀ x ∈ nw, isTiedBuilt x = false := by
  induction ms with
  | nil =>
    intro st
    exact ⟨[], st.nextRef, by simp [buildSeq], by simp⟩
  | cons s rest ih =>
    intro st
    obtain ⟨hs1, hs2⟩ := hm s (by simp)
    obtain ⟨x, nr, hstep, hx⟩ := buildStep_plain st s hs1 hs2
    obtain ⟨nw, nr', hseq, hnw⟩ :=
      ih (fun a ha => hm a (by simp [ha])) ⟨st.layers ++ [x], st.tied_layers, nr⟩
    refine ⟨x :: nw, nr', ?_, ?_⟩
    · show Except.bind (buildStep st s) (fun st' => buildSeq st' rest) = _
      rw [hstep]
      show buildSeq ⟨st.layers ++ [x], st.tied_layers, nr⟩ rest = _
      rw [hseq]
      simp
    · intro y hy
      rcases List.mem_cons.mp hy with hy | hy
      · exact hy ▸ hx
      · exact hnw y hy

/-- The reconstruction loop over a concatenation runs the two parts in
sequence. -/
theorem buildSeq_append (A B : List LayerSpecItem) :
    ∀ st, buildSeq st (A ++ B)
      = Except.bind (buildSeq st A) fun st' => buildSeq st' B := by
  induction A with
  | nil => intro st; rfl
  | cons a t ih =>
    intro st
    have hunfold : buildSeq st (a :: t)
        = Except.bind (buildStep st a) fun st' => buildSeq st' t := rfl
    have hunfold2 : buildSeq st ((a :: t) ++ B)
        = Except.bind (buildStep st a) fun st' => buildSeq st' (t ++ B) := rfl
    rw [hunfold2, hunfold]
    cases hb : buildStep st a with
    | error e => rfl
    | ok st' => exact ih st'

/-- A foreign object anywhere in the descriptor list makes the
reconstruction loop fail. -/
theorem buildSeq_foreign (n : Nat) :
    ∀ (specs : List LayerSpecItem) (st : BuildState), .foreign n ∈ specs →
      ∃ e, buildSeq st specs = .error e := by
  intro specs
  induction specs with
  | nil => intro st hmem; simp at hmem
  | cons s rest ih =>
    intro st hmem
    cases hb : buildStep st s with
    | error e =>
      exact ⟨e, by
        show Except.bind (buildStep st s) (fun st' => buildSeq st' rest) = _
        rw [hb]
        rfl⟩
    | ok st' =>
      have hmem' : LayerSpecItem.foreign n ∈ rest := by
        rcases List.mem_cons.mp hmem with h | h
        · subst h
          exact absurd hb (by simp [buildStep])
        · exact h
      obtain ⟨e, he⟩ := ih st' hmem'
      exact ⟨e, by
        show Except.bind (buildStep st s) (fun st' => buildSeq st' rest) = _
        rw [hb]
        exact he⟩

/-- The recursive setter rewrites a layer's caching flag exactly where
one exists. -/
theorem cacheFlag_set (v : Bool) (l : Layer) :
    cacheFlag (setGetKeyValue v l) = (cacheFlag l).map fun _ => v := by
  cases l <;> rfl

/-- Caching flags across a whole layer list after the recursive setter. -/
theorem map_cacheFlag_set (v : Bool) (fs : List Layer) :
    (fs.map (setGetKeyValue v)).map cacheFlag
      = fs.map fun l => (cacheFlag l).map fun _ => v := by
  induction fs with
  | nil => rfl
  | cons a t ih => simp only [List.map_cons, cacheFlag_set, ih]

/-- The recursive setter does not change whether the final layer is a
recognized linear head, nor its stored flag. -/
theorem headFlag_map_set (v : Bool) (fs : List Layer) :
    headParallelOutput (fs.map (setGetKeyValue v)) = headParallelOutput fs := by
  unfold headParallelOutput
  rw [List.getLast?_map]
  cases h : fs.getLast? with
  | none => rfl
  | some l => cases l <;> rfl

/-- Mapping a constant twice over an optional flag keeps only the last
constant. -/
theorem opt_const_map (o : Option Bool) (a b : Bool) :
    (o.map fun _ => a).map (fun _ => b) = o.map fun _ => b := by
  cases o <;> rfl

/-- Re-targeting every caching flag twice keeps only the second value. -/
theorem map_opt_const (fs : List Layer) (a b : Bool) :
    (fs.map fun l => (cacheFlag l).map fun _ => a).map (Option.map fun _ => b)
      = fs.map fun l => (cacheFlag l).map fun _ => b := by
  rw [List.map_map]
  exact List.map_congr_left fun l _ => opt_const_map (cacheFlag l) a b

/-- What _set_parallel_output does on a nonempty layer list: it succeeds,
touches no caching flag, and sets the head flag to the passed value
exactly when the final layer is a recognized linear head. -/
theorem set_parallel_output_spec (v : Bool) (fs : List Layer) (h : fs ≠ []) :
    ∃ out, _set_parallel_output v fs = .ok out ∧ out ≠ [] ∧
      out.map cacheFlag = fs.map cacheFlag ∧
      headParallelOutput out = (headParallelOutput fs).map fun _ => v := by
  have hlast : fs.getLast? = some (fs.getLast h) := List.getLast?_eq_getLast fs h
  by_cases hl : isLinearHeadLayer (fs.getLast h) = true
  · obtain ⟨p, hp⟩ : ∃ p, fs.getLast h = Layer.linearHead p := by
      cases hfl : fs.getLast h <;> rw [hfl] at hl <;>
        first
          | exact ⟨_, rfl⟩
          | exact absurd hl (by simp [isLinearHeadLayer])
    refine ⟨fs.dropLast ++ [Layer.linearHead v], ?_, by simp, ?_, ?_⟩
    · unfold _set_parallel_output
      rw [hlast]
      simp [hl]
    · conv_rhs => rw [← List.dropLast_append_getLast h]
      rw [List.map_append, List.map_append, hp]
      rfl
    · unfold headParallelOutput
      rw [List.getLast?_concat, hlast, hp]
      rfl
  · refine ⟨fs, ?_, h, rfl, ?_⟩
    · unfold _set_parallel_output
      rw [hlast]
      simp [hl]
    · unfold headParallelOutput
      rw [hlast]
      cases hfl : fs.getLast h <;> rw [hfl] at hl <;>
        first
          | exact absurd rfl hl
          | rfl

/-- Either mode switch = recursive caching-flag set followed by head-flag
set: the combined effect on a nonempty layer list. -/
theorem mode_core (v hv : Bool) (fs : List Layer) (h : fs ≠ []) :
    ∃ out, _set_parallel_output hv (fs.map (setGetKeyValue v)) = .ok out ∧ out ≠ [] ∧
      out.map cacheFlag = fs.map (fun l => (cacheFlag l).map fun _ => v) ∧
      headParallelOutput out = (headParallelOutput fs).map fun _ => hv := by
  have hne : fs.map (setGetKeyValue v) ≠ [] := by
    simpa using h
  obtain ⟨out, h1, h2, h3, h4⟩ := set_parallel_output_spec hv _ hne
  refine ⟨out, h1, h2, ?_, ?_⟩
  · rw [h3, map_cacheFlag_set]
  · rw [h4, headFlag_map_set]

/-- C1: on every nonempty model, switching to inference mode sets every
layer's caching flag to the cache argument and the final head's
gather-output flag (where one exists) to false; switching to training
mode sets every caching flag to false and the head flag to true; and the
round trip inference-then-training ends with every caching flag false
and the head flag true, whatever the prior state. -/
theorem mode_switch_flags (forward_funcs : List Layer) (cache : Bool)
    (h : forward_funcs ≠ []) :
    (∃ mid, inference_mode cache forward_funcs = .ok mid ∧
      mid.map cacheFlag
        = forward_funcs.map (fun l => (cacheFlag l).map fun _ => cache) ∧
      headParallelOutput mid
        = (headParallelOutput forward_funcs).map (fun _ => false) ∧
      ∃ out, train_mode mid = .ok out ∧
        out.map cacheFlag
          = forward_funcs.map (fun l => (cacheFlag l).map fun _ => false) ∧
        headParallelOutput out
          = (headParallelOutput forward_funcs).map fun _ => true) ∧
    (∃ out, train_mode forward_funcs = .ok out ∧
      out.map cacheFlag
        = forward_funcs.map (fun l => (cacheFlag l).map fun _ => false) ∧
      headParallelOutput out
        = (headParallelOutput forward_funcs).map fun _ => true) := by
  constructor
  · obtain ⟨mid, h1, hne, h2, h3⟩ := mode_core cache false forward_funcs h
    refine ⟨mid, h1, h2, h3, ?_⟩
    obtain ⟨out, g1, _, g2, g3⟩ := mode_core false true mid hne
    refine ⟨out, g1, ?_, ?_⟩
    · rw [g2]
      have : mid.map (fun l => (cacheFlag l).map fun _ => false)
          = (mid.map cacheFlag).map (Option.map fun _ => false) := by
        rw [List.map_map]
        rfl
      rw [this, h2, map_opt_const]
    · rw [g3, h3, opt_const_map]
  · obtain ⟨out, h1, _, h2, h3⟩ := mode_core false true forward_funcs h
    exact ⟨out, h1, h2, h3⟩

/-- Witness for mode_switch_flags on a concrete two-layer model. -/
theorem mode_switch_flags_witness :
    (∃ mid, inference_mode true [Layer.transformerLayer 0 false, Layer.linearHead true]
        = .ok mid ∧
      mid.map cacheFlag
        = [Layer.transformerLayer 0 false, Layer.linearHead true].map
            (fun l => (cacheFlag l).map fun _ => true) ∧
      headParallelOutput mid
        = (headParallelOutput [Layer.transformerLayer 0 false, Layer.linearHead true]).map
            (fun _ => false) ∧
      ∃ out, train_mode mid = .ok out ∧
        out.map cacheFlag
          = [Layer.transformerLayer 0 false, Layer.linearHead true].map
              (fun l => (cacheFlag l).map fun _ => false) ∧
        headParallelOutput out
          = (headParallelOutput [Layer.transformerLayer 0 false, Layer.linearHead true]).map
              fun _ => true) ∧
    (∃ out, train_mode [Layer.transformerLayer 0 false, Layer.linearHead true] = .ok out ∧
      out.map cacheFlag
        = [Layer.transformerLayer 0 false, Layer.linearHead true].map
            (fun l => (cacheFlag l).map fun _ => false) ∧
      headParallelOutput out
        = (headParallelOutput [Layer.transformerLayer 0 false, Layer.linearHead true]).map
            fun _ => true) :=
  mode_switch_flags [Layer.transformerLayer 0 false, Layer.linearHead true] true
    (by simp)

/-- C2 counterexample: on a model whose final layer is the tied-head
receiver Lambda (not a recognized linear-head kind), _set_parallel_output
returns the layer list unchanged and raises nothing, so the claim that an
unrecognized final head is a contract violation is false. -/
theorem set_parallel_output_skips_unrecognized_head :
    _set_parallel_output false [Layer.embedLayer, Layer.tiedHeadLambda] =
      Except.ok [Layer.embedLayer, Layer.tiedHeadLambda] ∧
    ∀ e, _set_parallel_output false [Layer.embedLayer, Layer.tiedHeadLambda] ≠
      Except.error e := by
  refine ⟨rfl, fun e h => ?_⟩
  rw [show _set_parallel_output false [Layer.embedLayer, Layer.tiedHeadLambda] =
        Except.ok [Layer.embedLayer, Layer.tiedHeadLambda] from rfl] at h
  exact Except.noConfusion h

/-- C2 amended: when the flag-setting operation reaches a final head that
is not a recognized linear-head kind, it silently skips that head,
returning the layer list unchanged with no error. -/
theorem set_parallel_output_noop_on_unrecognized (v : Bool) (fs : List Layer) (l : Layer)
    (hl : fs.getLast? = some l) (hnl : isLinearHeadLayer l = false) :
    _set_parallel_output v fs = Except.ok fs := by
  simp [_set_parallel_output, hl, hnl]

/-- Witness for set_parallel_output_noop_on_unrecognized. -/
theorem set_parallel_output_noop_on_unrecognized_witness :
    _set_parallel_output true [Layer.normLayer] = Except.ok [Layer.normLayer] :=
  set_parallel_output_noop_on_unrecognized true [Layer.normLayer] Layer.normLayer
    (by rfl) (by rfl)

/-- C9: reconstructing a tied descriptor sequence builds the tied layer
exactly once, at the owner (the chain's first element, a built tied
module); the receiver is the appended wrapper whose captured owner
instance is that same built module, so both forward calls read the
identical underlying weight matrix; and any sequence element that is
neither a recognized descriptor nor a callable makes reconstruction fail
with a fatal error. -/
theorem tied_reconstruction (args : NeoxArgs) (kv po inf : Bool)
    (hty : args.no_weight_tying = false)
    (hlen : args.num_layers ≤ args.attention_config.length) :
    (∃ L chain r, init_specs args kv po inf = some L ∧
      to_sequential L = .ok chain ∧
      chain.head? = some (.builtModule r (.tiedEmbedding "embed" false)) ∧
      chain.getLast? = some (.tiedLambda "embed" r) ∧
      chain.countP isTiedBuilt = 1 ∧
      ∀ heap, readWeight heap (SeqLayer.builtModule r (.tiedEmbedding "embed" false))
        = readWeight heap (SeqLayer.tiedLambda "embed" r)) ∧
    ∀ (specs2 : List LayerSpecItem) (n : Nat), .foreign n ∈ specs2 →
      ∃ e, to_sequential specs2 = .error e := by
  constructor
  · have hlayers := layerSpecsAux_eq args.attention_config kv args.num_layers hlen
    have hspec : init_specs args kv po inf =
        some (LayerSpecItem.tiedEmbedding "embed" false ::
          (([LayerSpecItem.preFn]
            ++ ((List.range args.num_layers).map
                  fun i => specForLayer kv i (layerKindAt args.attention_config i))
            ++ [LayerSpecItem.postFn, LayerSpecItem.normStage])
          ++ [LayerSpecItem.tiedEmbedding "embed" true])) := by
      simp [init_specs, hty, hlayers]
    have hm : ∀ s ∈ [LayerSpecItem.preFn]
        ++ ((List.range args.num_layers).map
              fun i => specForLayer kv i (layerKindAt args.attention_config i))
        ++ [LayerSpecItem.postFn, LayerSpecItem.normStage],
        isTiedSpec s = false ∧ ∀ m, s ≠ .foreign m := by
      intro s hs
      rcases List.mem_append.mp hs with hs1 | hs2
      · rcases List.mem_append.mp hs1 with hs3 | hs4
        · rcases List.mem_singleton.mp hs3 with rfl
          exact ⟨rfl, fun m h => LayerSpecItem.noConfusion h⟩
        · obtain ⟨i, _, rfl⟩ := List.mem_map.mp hs4
          exact ⟨(specForLayer_shape kv i (layerKindAt args.attention_config i)).2.1,
            (specForLayer_shape kv i (layerKindAt args.attention_config i)).2.2.2.2⟩
      · rcases List.mem_cons.mp hs2 with rfl | hs5
        · exact ⟨rfl, fun m h => LayerSpecItem.noConfusion h⟩
        · rcases List.mem_singleton.mp hs5 with rfl
          exact ⟨rfl, fun m h => LayerSpecItem.noConfusion h⟩
    obtain ⟨nw, nr, hseqM, hnw⟩ := buildSeq_plain _ hm
      ⟨[.builtModule 0 (.tiedEmbedding "embed" false)], [("embed", 0)], 1⟩
    have hrun : buildSeq (⟨[], [], 0⟩ : BuildState)
        (LayerSpecItem.tiedEmbedding "embed" false ::
          (([LayerSpecItem.preFn]
            ++ ((List.range args.num_layers).map
                  fun i => specForLayer kv i (layerKindAt args.attention_config i))
            ++ [LayerSpecItem.postFn, LayerSpecItem.normStage])
          ++ [LayerSpecItem.tiedEmbedding "embed" true]))
        = .ok ⟨([.builtModule 0 (.tiedEmbedding "embed" false)] ++ nw)
            ++ [.tiedLambda "embed" 0], [("embed", 0)], nr⟩ := by
      calc buildSeq (⟨[], [], 0⟩ : BuildState)
            (LayerSpecItem.tiedEmbedding "embed" false ::
              (([LayerSpecItem.preFn]
                ++ ((List.range args.num_layers).map
                      fun i => specForLayer kv i (layerKindAt args.attention_config i))
                ++ [LayerSpecItem.postFn, LayerSpecItem.normStage])
              ++ [LayerSpecItem.tiedEmbedding "embed" true]))
          = buildSeq ⟨[.builtModule 0 (.tiedEmbedding "embed" false)], [("embed", 0)], 1⟩
              (([LayerSpecItem.preFn]
                ++ ((List.range args.num_layers).map
                      fun i => specForLayer kv i (layerKindAt args.attention_config i))
                ++ [LayerSpecItem.postFn, LayerSpecItem.normStage])
              ++ [LayerSpecItem.tiedEmbedding "embed" true]) := rfl
        _ = Except.bind (buildSeq
              ⟨[.builtModule 0 (.tiedEmbedding "embed" false)], [("embed", 0)], 1⟩
              ([LayerSpecItem.preFn]
                ++ ((List.range args.num_layers).map
                      fun i => specForLayer kv i (layerKindAt args.attention_config i))
                ++ [LayerSpecItem.postFn, LayerSpecItem.normStage]))
              (fun st' => buildSeq st' [LayerSpecItem.tiedEmbedding "embed" true]) :=
            buildSeq_append _ _ _
        _ = .ok ⟨([.builtModule 0 (.tiedEmbedding "embed" false)] ++ nw)
              ++ [.tiedLambda "embed" 0], [("embed", 0)], nr⟩ := by
            rw [hseqM]
            rfl
    refine ⟨_, ([SeqLayer.builtModule 0 (.tiedEmbedding "embed" false)] ++ nw)
        ++ [SeqLayer.tiedLambda "embed" 0], 0, hspec, ?_, ?_, ?_, ?_,
      fun heap => rfl⟩
    · unfold to_sequential
      rw [hrun]
      rfl
    · rfl
    · exact List.getLast?_concat _
    · have hz : nw.countP isTiedBuilt = 0 :=
        List.countP_eq_zero.mpr fun x hx => by
          rw [hnw x hx]
          exact Bool.false_ne_true
      rw [List.countP_append, List.countP_append, hz]
      rfl
  · intro specs2 n hmem
    obtain ⟨e, he⟩ := buildSeq_foreign n specs2 ⟨[], [], 0⟩ hmem
    refine ⟨e, ?_⟩
    unfold to_sequential
    rw [he]
    rfl

/-- Witness for tied_reconstruction at a concrete one-layer tied config
and a concrete foreign element. -/
theorem tied_reconstruction_witness :
    (∃ L chain r, init_specs ⟨0, 1, ["standard"], false⟩ true true false = some L ∧
      to_sequential L = .ok chain ∧
      chain.head? = some (.builtModule r (.tiedEmbedding "embed" false)) ∧
      chain.getLast? = some (.tiedLambda "embed" r) ∧
      chain.countP isTiedBuilt = 1 ∧
      ∀ heap, readWeight heap (SeqLayer.builtModule r (.tiedEmbedding "embed" false))
        = readWeight heap (SeqLayer.tiedLambda "embed" r)) ∧
    (∃ e, to_sequential [LayerSpecItem.foreign 0] = .error e) :=
  ⟨(tied_reconstruction ⟨0, 1, ["standard"], false⟩ true true false
      (by decide) (by decide)).1,
   (tied_reconstruction ⟨0, 1, ["standard"], false⟩ true true false
      (by decide) (by decide)).2 [LayerSpecItem.foreign 0] 0 (by simp)⟩

end GPT2ModelPipeSpec
